import Mathlib

/-!
Verification development for cookie_exporter.py: a shallow embedding of the
cookie reading, timestamp conversion and Netscape encoding pipeline, together
with theorems settling the specification claims about it.

Conventions of the embedding:
* SQLite rows of the cookies table are modelled by `Row` (the six selected
  columns host_key, name, value, path, expires_utc, is_secure, read
  positionally as in the SELECT statements at lines 139-146 of the source).
* The SQLite LIKE operator used by the filtered query is modelled by
  `likeMatch` below, following the documented SQLite semantics: percent
  matches any character sequence, underscore matches any single character,
  and comparison of ordinary characters is ASCII-case-insensitive.
* Python float arithmetic inside `int(chrome_ts / 1000000 - 11644473600)`
  (line 177) is modelled by exact rational arithmetic followed by truncation
  toward zero, which is what `int` applied to a float value performs. The
  rational model coincides with the binary64 computation on the region this
  file quantifies over or evaluates at: whenever t is divisible by
  15625 = 5 ^ 6 and t < 15625 * 2 ^ 53, the quotient t / 1000000 equals
  m * 2 ^ (-6) for an integer m with absolute value below 2 ^ 53, hence is
  exactly representable, and so is its difference with the exactly
  representable integer 11644473600 (the numerator of the difference also
  stays below 2 ^ 53 in magnitude, since 64 * 11644473600 < 2 ^ 53); both
  float operations are therefore exact there and `int` truncates the exact
  value. Outside that region the program is additionally subject to
  binary64 rounding, which this embedding does not model: for example at
  t = 17179869184999999 the division rounds up across an integer boundary
  and the program returns 5535395585 where the exact formula gives
  5535395584. Universally quantified statements about the conversion are
  therefore restricted to the exact region; the concrete evaluation inputs
  1500000, 13320288000000000 and 0 all lie in it.
* The filesystem effects of `get_chrome_cookies` (temp copy creation and
  deletion, lines 125 and 162-163) and of `main` (output write, lines 237-239)
  are modelled by explicit state passing in `run_get_chrome_cookies` and
  `run_pipeline`.
-/

namespace CookieExporter

/-- ASCII upper-case letters fold to lower case; every other character is
left unchanged. This is the case folding SQLite applies to both operands of
LIKE by default (ASCII-only case insensitivity). -/
def asciiFold (c : Char) : Char :=
  if 'A' ≤ c ∧ c ≤ 'Z' then Char.ofNat (c.toNat + 32) else c

/-- Comparison of one ordinary (non-wildcard) pattern character with one text
character under the SQLite LIKE default collation. -/
def likeChar (p c : Char) : Bool :=
  asciiFold p == asciiFold c

/-- Helper for the percent wildcard: `likeTail f s` holds when `f` holds of
some suffix of `s` (including `s` itself and the empty suffix). -/
def likeTail (f : List Char → Bool) : List Char → Bool
  | [] => f []
  | c :: s => f (c :: s) || likeTail f s

/-- The SQLite LIKE operator on character lists: percent matches any sequence
of characters, underscore matches any single character, and any other pattern
character matches case-insensitively (ASCII). Models the `host_key LIKE ?`
predicate issued by the source at lines 139-143. -/
def likeMatch : List Char → List Char → Bool
  | [], s => s.isEmpty
  | p :: ps, s =>
    if p = '%' then likeTail (likeMatch ps) s
    else
      match s with
      | [] => false
      | c :: s2 => (if p = '_' then true else likeChar p c) && likeMatch ps s2

/-- The match performed for one filter domain: the source builds the pattern
`"%" + dom + "%"` (line 138, `like_pattern = f"%{dom}%"`) and runs
`host_key LIKE like_pattern`. -/
def likeContains (dom host : String) : Bool :=
  likeMatch ('%' :: (dom.toList ++ ['%'])) host.toList

/-- One row of the cookies table as selected by the source queries, columns in
SELECT order: host_key, name, value, path, expires_utc, is_secure
(lines 140 and 146). expires_utc is a nullable integer column; is_secure is
an integer column. -/
structure Row where
  host_key : String
  name : String
  value : String
  path : String
  expires_utc : Option Int
  is_secure : Int
  deriving DecidableEq

/-- The cookie dict built by the source at lines 151-158: keys domain, name,
value, path, secure, expires_utc. -/
structure Cookie where
  domain : String
  name : String
  value : String
  path : String
  secure : Bool
  expires_utc : Option Int
  deriving DecidableEq

/-- Construction of one cookie dict from one row (source lines 150-158).
Fields in order: domain := host_key, name := name, value := value,
path := path, secure := bool(is_secure) (true exactly for a non-zero
integer), expires_utc := expires_utc. -/
def rowToCookie (r : Row) : Cookie :=
  Cookie.mk r.host_key r.name r.value r.path (r.is_secure != 0) r.expires_utc

/-- The row sequence produced by the query section of `get_chrome_cookies`
(source lines 133-147): with a non-empty filter list, one LIKE query per
domain, each returning the matching rows in storage order, accumulated with
`results.extend` in filter order; with an empty (or None) filter list, a
single unfiltered SELECT returning all rows in storage order. -/
def query_cookies (rows : List Row) (filter_domains : List String) : List Row :=
  if filter_domains.isEmpty then rows
  else (filter_domains.map (fun dom => rows.filter (fun r => likeContains dom r.host_key))).flatten

/-- The value returned by `get_chrome_cookies` (source lines 110-165) as a
function of the stored rows and the filter list: the queried rows converted
to cookie dicts in order. -/
def get_chrome_cookies (rows : List Row) (filter_domains : List String) : List Cookie :=
  (query_cookies rows filter_domains).map rowToCookie

/-- Literal (case-sensitive) list prefix test, used to state the claim-side
substring semantics and the startswith test. -/
def strStarts : List Char → List Char → Bool
  | [], _ => true
  | _ :: _, [] => false
  | a :: as, b :: bs => a == b && strStarts as bs

/-- Literal (case-sensitive) substring containment on character lists. -/
def strHasSub (needle : List Char) : List Char → Bool
  | [] => strStarts needle []
  | c :: t => strStarts needle (c :: t) || strHasSub needle t

/-- Modelled from the spec wording of claim C3 (refinement comparison only,
not a translation of the source): one literal substring (contains) match per
filter domain against the host field, results concatenated in filter order.
Used to compare the spec reading against the LIKE semantics the source
actually issues. -/
def query_cookies_substr_spec (rows : List Row) (filter_domains : List String) : List Row :=
  if filter_domains.isEmpty then rows
  else (filter_domains.map (fun dom => rows.filter (fun r => strHasSub dom.toList r.host_key.toList))).flatten

/-- The Python `s.startswith(pre)` test on strings. -/
def strStartsWith (s pre : String) : Bool :=
  strStarts pre.toList s.toList

/-- Truncation of a rational toward zero: what Python `int` applied to a real
value computes. -/
def ratTrunc (q : ℚ) : ℤ :=
  q.num.tdiv q.den

/-- Source lines 167-177, `convert_chrome_timestamp_to_unix`:
`if not chrome_ts: return 0` (None and 0 are both falsy), else
`int(chrome_ts / 1000000 - 11644473600)`. The arithmetic is modelled
exactly over the rationals; `int` truncates toward zero. -/
def convert_chrome_timestamp_to_unix : Option Int → Int
  | none => 0
  | some t => if t = 0 then 0 else ratTrunc ((t : ℚ) / 1000000 - 11644473600)

/-- The fixed header comment line (source line 189). -/
def netscape_header : String := "# Netscape HTTP Cookie File"

/-- Source line 196: `"TRUE" if domain.startswith(".") else "FALSE"`. -/
def domain_cookie_flag (domain : String) : String :=
  if strStartsWith domain "." then "TRUE" else "FALSE"

/-- Source line 199: `"TRUE" if c["secure"] else "FALSE"`. -/
def secure_flag (secure : Bool) : String :=
  if secure then "TRUE" else "FALSE"

/-- One record line of the output (source line 204): the seven fields joined
by tab characters in the order domain, subdomain flag, path, secure flag,
expiry epoch, name, value. -/
def netscape_line (c : Cookie) : String :=
  c.domain ++ "\t" ++ domain_cookie_flag c.domain ++ "\t" ++ c.path ++ "\t"
    ++ secure_flag c.secure ++ "\t"
    ++ toString (convert_chrome_timestamp_to_unix c.expires_utc) ++ "\t"
    ++ c.name ++ "\t" ++ c.value

/-- Source lines 179-207, `to_netscape`: the header line followed by one line
per record, joined by single newline characters (line 207,
`"\n".join(lines)`). -/
def to_netscape (cookies : List Cookie) : String :=
  String.intercalate "\n" (netscape_header :: cookies.map netscape_line)

/-- The two kinds of exception that can escape the reader: `shutil.copy2`
raising FileNotFoundError when the source path does not exist (line 107), and
sqlite3 raising a DatabaseError while querying (lines 139-146), e.g. for a
file that is not a database or lacks the cookies table. -/
inductive ReadError where
  | fileNotFound
  | databaseError
  deriving DecidableEq

/-- The fixed temporary path used by `copy_sqlite_db` (source line 106):
gettempdir() joined with the constant file name. -/
def copy_sqlite_db_path (tmpDir : String) : String :=
  tmpDir ++ "/chrome_cookies_export_temp.db"

/-- Effectful model of `get_chrome_cookies` (source lines 110-165).
Arguments: the temp directory, whether the source database file exists, the
contents of the cookies table (`none` models a file whose querying raises a
sqlite3 error: wrong schema or not a database), and the filter list.
Returns the Python result or the escaping exception, paired with the
temporary copy left on disk after the call (`none` when no temp file
remains). The control flow follows the source exactly: copy2 raises before
creating the temp file when the source is missing; a query error propagates
at lines 139-146, before the `os.remove` at line 163 is reached (there is no
try/finally); on success the rows are converted and the temp file removed. -/
def run_get_chrome_cookies (tmpDir : String) (srcExists : Bool) (table : Option (List Row))
    (filter_domains : List String) : Except ReadError (List Cookie) × Option String :=
  if srcExists then
    match table with
    | none => (Except.error ReadError.databaseError, some (copy_sqlite_db_path tmpDir))
    | some rows => (Except.ok (get_chrome_cookies rows filter_domains), none)
  else
    (Except.error ReadError.fileNotFound, none)

/-- Effectful model of the `main` pipeline after configuration resolution
(source lines 231-243): read the cookies, encode, then write the output
file. `outputBefore` is the prior contents of the output path (`none` when
the file does not exist); the second component of the result is its contents
afterwards. An exception escaping the reader propagates out of `main` before
`open(output_path, "w")` is reached, so the output file is untouched on that
path. -/
def run_pipeline (tmpDir : String) (srcExists : Bool) (table : Option (List Row))
    (filter_domains : List String) (outputBefore : Option String) :
    Except ReadError String × Option String :=
  match run_get_chrome_cookies tmpDir srcExists table filter_domains with
  | (Except.error e, _) => (Except.error e, outputBefore)
  | (Except.ok cookies, _) => (Except.ok (to_netscape cookies), some (to_netscape cookies))

/-- Truncation toward zero agrees with the floor on nonnegative rationals. -/
theorem ratTrunc_of_nonneg (q : ℚ) (h : 0 ≤ q) : ratTrunc q = ⌊q⌋ := by
  rw [ratTrunc, Rat.floor_def]
  exact Int.tdiv_eq_ediv (Rat.num_nonneg.mpr h) (Int.ofNat_nonneg q.den)

/-- Truncation toward zero commutes with negation. -/
theorem ratTrunc_neg_eq (q : ℚ) : ratTrunc (-q) = -ratTrunc q := by
  rw [ratTrunc, ratTrunc, Rat.num_neg_eq_neg_num, Rat.den_neg_eq_den, Int.neg_tdiv]

/-- Truncation toward zero of an integer fraction is integer T-division. -/
theorem ratTrunc_intCast_div_natCast (a : ℤ) (b : ℕ) :
    ratTrunc ((a : ℚ) / (b : ℚ)) = a.tdiv b := by
  rcases le_or_lt 0 a with ha | ha
  · have hq : (0 : ℚ) ≤ (a : ℚ) / (b : ℚ) := by
      apply div_nonneg _ (by positivity)
      exact_mod_cast ha
    rw [ratTrunc_of_nonneg _ hq, Rat.floor_intCast_div_natCast]
    exact (Int.tdiv_eq_ediv ha (Int.ofNat_nonneg b)).symm
  · have h1 : ((a : ℚ) / (b : ℚ)) = -(((-a : ℤ) : ℚ) / (b : ℚ)) := by push_cast; ring
    have hq : (0 : ℚ) ≤ ((-a : ℤ) : ℚ) / (b : ℚ) := by
      apply div_nonneg _ (by positivity)
      exact_mod_cast (by omega : (0 : ℤ) ≤ -a)
    have h2 : Int.tdiv (-a) (b : ℤ) = (-a) / (b : ℤ) :=
      Int.tdiv_eq_ediv (by omega) (Int.ofNat_nonneg b)
    have h3 : Int.tdiv (-a) (b : ℤ) = -(Int.tdiv a (b : ℤ)) := Int.neg_tdiv a (b : ℤ)
    rw [h1, ratTrunc_neg_eq, ratTrunc_of_nonneg _ hq, Rat.floor_intCast_div_natCast, ← h2, h3,
      neg_neg]

/-- Closed form of the conversion on a present timestamp: the exact rational
computation reduces to one integer T-division. -/
theorem convert_some_eq (t : ℤ) :
    convert_chrome_timestamp_to_unix (some t)
      = if t = 0 then 0 else (t - 11644473600 * 1000000).tdiv 1000000 := by
  show (if t = 0 then 0 else ratTrunc ((t : ℚ) / 1000000 - 11644473600)) = _
  by_cases ht : t = 0
  · rw [if_pos ht, if_pos ht]
  · rw [if_neg ht, if_neg ht]
    have h : ((t : ℚ) / 1000000 - 11644473600)
        = ((t - 11644473600 * 1000000 : ℤ) : ℚ) / ((1000000 : ℕ) : ℚ) := by
      push_cast
      ring
    rw [h, ratTrunc_intCast_div_natCast]
    norm_cast

/-- C1 (amended): on the vendor epoch values where the Python binary64
computation is provably exact, namely t divisible by 15625 = 5 ^ 6 (so that
t / 1000000 is a dyadic rational) and below 15625 * 2 ^ 53 (so that it and
the subsequent difference fit a 53-bit mantissa), the conversion returns the
truncation toward zero of (t / 1000000 - 11644473600), the integer
T-division of (t - 11644473600 * 1000000) by 1000000. On that region this
coincides with the claimed floor(t / 1000000) - 11644473600 whenever t is
at least 11644473600 * 1000000 (expiry at or after the 1970 epoch), and is
exactly one greater when 0 < t is below that bound and t is not a multiple
of 1000000 (Python int truncates toward zero after the subtraction instead
of flooring the division first). Input zero and an absent (None) input give
0. Outside the stated region the program is additionally subject to float
rounding, which the exact embedding does not capture, so nothing is claimed
there. -/
theorem C1_amended_thm :
    (∀ t : ℤ, 0 < t → t % 15625 = 0 → t < 15625 * 2 ^ 53 →
        convert_chrome_timestamp_to_unix (some t)
          = (t - 11644473600 * 1000000).tdiv 1000000)
    ∧ (∀ t : ℤ, 11644473600 * 1000000 ≤ t → t % 15625 = 0 → t < 15625 * 2 ^ 53 →
        convert_chrome_timestamp_to_unix (some t) = t / 1000000 - 11644473600)
    ∧ (∀ t : ℤ, 0 < t → t < 11644473600 * 1000000 → t % 15625 = 0 → t % 1000000 ≠ 0 →
        convert_chrome_timestamp_to_unix (some t) = t / 1000000 - 11644473600 + 1)
    ∧ convert_chrome_timestamp_to_unix (some 0) = 0
    ∧ convert_chrome_timestamp_to_unix none = 0 := by
  refine ⟨?_, ?_, ?_, ?_, rfl⟩
  · intro t ht hmod hbound
    rw [convert_some_eq, if_neg (by omega)]
  · intro t ht hmod hbound
    rw [convert_some_eq, if_neg (by omega)]
    rw [Int.tdiv_eq_ediv (by omega) (by norm_num)]
    omega
  · intro t ht hlt hmod hnmod
    rw [convert_some_eq, if_neg (by omega)]
    have h2 : Int.tdiv (-(t - 11644473600 * 1000000)) 1000000
        = (-(t - 11644473600 * 1000000)) / 1000000 :=
      Int.tdiv_eq_ediv (by omega) (by norm_num)
    have h3 : Int.tdiv (-(t - 11644473600 * 1000000)) 1000000
        = -((t - 11644473600 * 1000000).tdiv 1000000) :=
      Int.neg_tdiv _ _
    omega
  · rw [convert_some_eq, if_pos rfl]

/-- C1 counterexample: at the vendor epoch value 1500000 (1.5 seconds after
1601-01-01) the code returns -11644473598, while the claimed formula
floor(t / 1000000) - 11644473600 evaluates to -11644473599; the claim as
stated is therefore false at t = 1500000. -/
theorem C1_counterexample :
    convert_chrome_timestamp_to_unix (some 1500000)
        ≠ (1500000 : ℤ) / 1000000 - 11644473600
    ∧ convert_chrome_timestamp_to_unix (some 1500000) = -11644473598
    ∧ (1500000 : ℤ) / 1000000 - 11644473600 = -11644473599 := by
  have h : convert_chrome_timestamp_to_unix (some 1500000) = -11644473598 := by
    rw [convert_some_eq, if_neg (by norm_num)]
    decide
  refine ⟨?_, h, by decide⟩
  rw [h]
  decide

/-- C1 witness: the amended theorem applied at the concrete in-region
inputs 13320288000000000 (a multiple of 15625, post-1970 expiry, floor
clause) and 1500000 = 15625 * 96 (pre-1970 expiry, not a multiple of
1000000, both the T-division clause and the one-greater clause). -/
theorem C1_amended_witness :
    convert_chrome_timestamp_to_unix (some 13320288000000000) = 1675814400
    ∧ convert_chrome_timestamp_to_unix (some 1500000) = -11644473598
    ∧ convert_chrome_timestamp_to_unix (some 1500000)
        = (1500000 : ℤ) / 1000000 - 11644473600 + 1
    ∧ convert_chrome_timestamp_to_unix (some 0) = 0 := by
  refine ⟨?_, ?_, ?_, C1_amended_thm.2.2.2.1⟩
  · have h := C1_amended_thm.2.1 13320288000000000 (by norm_num) (by decide) (by norm_num)
    rw [h]
    decide
  · have h := C1_amended_thm.1 1500000 (by norm_num) (by decide) (by norm_num)
    rw [h]
    decide
  · exact C1_amended_thm.2.2.1 1500000 (by norm_num) (by norm_num) (by decide) (by decide)

/-- One record line on an explicit record, with the field accesses reduced. -/
theorem netscape_line_mk (domain name value path : String) (secure : Bool) (e : Option Int) :
    netscape_line (Cookie.mk domain name value path secure e)
      = domain ++ "\t" ++ domain_cookie_flag domain ++ "\t" ++ path ++ "\t"
        ++ secure_flag secure ++ "\t"
        ++ toString (convert_chrome_timestamp_to_unix e) ++ "\t"
        ++ name ++ "\t" ++ value := rfl

/-- C4: with an empty filter list (the Python None default is likewise falsy
and takes the same branch) the reader returns every record of the store,
converted in storage order. -/
theorem C4_thm : ∀ rows : List Row, get_chrome_cookies rows [] = rows.map rowToCookie := by
  intro rows
  rfl

/-- C5: the synthetic record with domain .example.com, name sid, value
abc123, path /, secure true and vendor expiry 13320288000000000 encodes to
exactly the header line followed by the claimed tab-separated record line,
with expiry epoch 1675814400. -/
theorem C5_thm :
    to_netscape [Cookie.mk ".example.com" "sid" "abc123" "/" true (some 13320288000000000)]
      = "# Netscape HTTP Cookie File\n.example.com\tTRUE\t/\tTRUE\t1675814400\tsid\tabc123" := by
  have hconv : convert_chrome_timestamp_to_unix (some 13320288000000000) = 1675814400 := by
    rw [convert_some_eq, if_neg (by norm_num)]
    decide
  simp only [to_netscape, List.map_cons, List.map_nil, netscape_line_mk, hconv]
  decide

/-- C6: the encoder emits subdomain flag TRUE exactly when the stored domain
string begins with the character dot, and FALSE otherwise (a purely
syntactic test on the stored string); in particular a record with domain
example.com is encoded with subdomain flag FALSE. -/
theorem C6_thm :
    (∀ domain : String,
        (domain_cookie_flag domain = "TRUE" ↔ domain.toList.head? = some '.')
        ∧ (domain_cookie_flag domain = "FALSE" ↔ domain.toList.head? ≠ some '.'))
    ∧ netscape_line (Cookie.mk "example.com" "sid" "abc123" "/" true (some 0))
        = "example.com\tFALSE\t/\tTRUE\t0\tsid\tabc123" := by
  constructor
  · intro domain
    have hT : ("TRUE" : String) ≠ "FALSE" := by decide
    unfold domain_cookie_flag strStartsWith
    cases h : domain.toList with
    | nil =>
      rw [show (".".toList) = ['.'] from rfl]
      simp [strStarts, hT.symm]
    | cons c t =>
      rw [show (".".toList) = ['.'] from rfl]
      by_cases hc : c = '.'
      · subst hc
        simp [strStarts, hT]
      · have hb : (('.' : Char) == c) = false := by
          simp [hc]
          exact fun h2 => hc h2.symm
        simp [strStarts, hb, hT.symm, hc]
  · decide

/-- C6 witness: the theorem applied at the concrete domains .example.com
(leading dot, flag TRUE) and example.com (no leading dot, flag FALSE). -/
theorem C6_witness :
    domain_cookie_flag ".example.com" = "TRUE" ∧ domain_cookie_flag "example.com" = "FALSE" :=
  ⟨(C6_thm.1 ".example.com").1.mpr (by decide), (C6_thm.1 "example.com").2.mpr (by decide)⟩

/-- C7: on an empty record sequence the encoder output is exactly the fixed
one-line header, with no record lines and no trailing newline; in general
the output is the header line followed by one line per record, joined by
single newline characters. -/
theorem C7_thm :
    to_netscape [] = "# Netscape HTTP Cookie File"
    ∧ (∀ cookies : List Cookie,
        to_netscape cookies
          = String.intercalate "\n" ("# Netscape HTTP Cookie File" :: cookies.map netscape_line)) := by
  exact ⟨by decide, fun cookies => rfl⟩

/-- C10: the secure field of every produced record is the truth-value
coercion of the stored is_secure integer: any non-zero value (not only 1)
gives secure true, encoded TRUE by the encoder; zero gives secure false,
encoded FALSE. Shown in general and at the concrete stored values 2, -1
and 0. -/
theorem C10_thm :
    (∀ r : Row,
        (rowToCookie r).secure = (if r.is_secure = 0 then false else true)
        ∧ secure_flag (rowToCookie r).secure = (if r.is_secure = 0 then "FALSE" else "TRUE"))
    ∧ (rowToCookie (Row.mk "h" "n" "v" "/" (some 0) 2)).secure = true
    ∧ secure_flag (rowToCookie (Row.mk "h" "n" "v" "/" (some 0) 2)).secure = "TRUE"
    ∧ (rowToCookie (Row.mk "h" "n" "v" "/" (some 0) (-1))).secure = true
    ∧ (rowToCookie (Row.mk "h" "n" "v" "/" (some 0) 0)).secure = false
    ∧ secure_flag (rowToCookie (Row.mk "h" "n" "v" "/" (some 0) 0)).secure = "FALSE" := by
  refine ⟨?_, by decide, by decide, by decide, by decide, by decide⟩
  intro r
  unfold rowToCookie secure_flag
  by_cases h : r.is_secure = 0
  · simp [h]
  · simp [h, bne]

/-- C3 (amended): with a non-empty filter set the reader performs one SQLite
LIKE match per filter domain against the host field, with the pattern
percent-domain-percent (an ASCII-case-insensitive containment test in which
percent and underscore characters inside the filter act as wildcards, rather
than the literal case-sensitive substring test the claim stated), and
concatenates the per-filter results in filter order without de-duplication:
a stored record whose host matches two filter entries appears at least twice
in the returned sequence, and every stored record matching some filter entry
appears in the returned sequence. -/
theorem C3_amended_thm :
    (∀ (rows : List Row) (doms : List String), doms ≠ [] →
        get_chrome_cookies rows doms
          = ((doms.map (fun dom => rows.filter (fun r => likeContains dom r.host_key))).flatten).map
              rowToCookie)
    ∧ (∀ (rows : List Row) (ds1 ds2 ds3 : List String) (d1 d2 : String) (r : Row),
        r ∈ rows → likeContains d1 r.host_key = true → likeContains d2 r.host_key = true →
        2 ≤ (get_chrome_cookies rows (ds1 ++ d1 :: ds2 ++ d2 :: ds3)).count (rowToCookie r))
    ∧ (∀ (rows : List Row) (doms : List String) (d : String) (r : Row),
        d ∈ doms → r ∈ rows → likeContains d r.host_key = true →
        rowToCookie r ∈ get_chrome_cookies rows doms) := by
  refine ⟨?_, ?_, ?_⟩
  · intro rows doms hne
    have h : doms.isEmpty = false := by
      cases doms with
      | nil => exact absurd rfl hne
      | cons a t => rfl
    unfold get_chrome_cookies query_cookies
    rw [h]
    simp
  · intro rows ds1 ds2 ds3 d1 d2 r hr h1 h2
    have h : (ds1 ++ d1 :: ds2 ++ d2 :: ds3).isEmpty = false := by
      cases ds1 with
      | nil => rfl
      | cons a t => rfl
    unfold get_chrome_cookies query_cookies
    rw [h]
    simp only [Bool.false_eq_true, if_false]
    refine le_trans ?_ (List.count_le_count_map _ rowToCookie r)
    rw [List.map_append, List.map_cons, List.map_append, List.map_cons,
      List.flatten_append, List.flatten_cons, List.flatten_append, List.flatten_cons]
    simp only [List.count_append]
    have e1 : 0 < (rows.filter (fun r2 => likeContains d1 r2.host_key)).count r :=
      List.count_pos_iff.mpr (List.mem_filter.mpr ⟨hr, h1⟩)
    have e2 : 0 < (rows.filter (fun r2 => likeContains d2 r2.host_key)).count r :=
      List.count_pos_iff.mpr (List.mem_filter.mpr ⟨hr, h2⟩)
    omega
  · intro rows doms d r hd hr hlike
    have h : doms.isEmpty = false := by
      cases doms with
      | nil => cases hd
      | cons a t => rfl
    unfold get_chrome_cookies query_cookies
    rw [h]
    simp only [Bool.false_eq_true, if_false]
    refine List.mem_map.mpr ⟨r, ?_, rfl⟩
    refine List.mem_flatten.mpr ⟨rows.filter (fun r2 => likeContains d r2.host_key), ?_, ?_⟩
    · exact List.mem_map.mpr ⟨d, hd, rfl⟩
    · exact List.mem_filter.mpr ⟨hr, hlike⟩

/-- C3 counterexample: the stored host EXAMPLE.com is returned by the code
for the filter example (SQLite LIKE is ASCII-case-insensitive), although
example is not a literal substring of EXAMPLE.com; the reader therefore
differs, at this concrete store and filter list, from the substring
(contains) semantics the claim stated. -/
theorem C3_counterexample :
    query_cookies [Row.mk "EXAMPLE.com" "sid" "v" "/" (some 0) 1] ["example"]
      = [Row.mk "EXAMPLE.com" "sid" "v" "/" (some 0) 1]
    ∧ query_cookies_substr_spec [Row.mk "EXAMPLE.com" "sid" "v" "/" (some 0) 1] ["example"] = []
    ∧ get_chrome_cookies [Row.mk "EXAMPLE.com" "sid" "v" "/" (some 0) 1] ["example"]
        ≠ (query_cookies_substr_spec [Row.mk "EXAMPLE.com" "sid" "v" "/" (some 0) 1]
            ["example"]).map rowToCookie := by
  refine ⟨by decide, by decide, by decide⟩

/-- C3 witness: the amended theorem applied to a one-record store with host
a.com and the filter list [a, com]: the record matches both filters, appears
twice in the result, and is a member of the result. -/
theorem C3_amended_witness :
    get_chrome_cookies [Row.mk "a.com" "n" "v" "/" (some 0) 1] ["a", "com"]
      = [rowToCookie (Row.mk "a.com" "n" "v" "/" (some 0) 1),
          rowToCookie (Row.mk "a.com" "n" "v" "/" (some 0) 1)]
    ∧ 2 ≤ (get_chrome_cookies [Row.mk "a.com" "n" "v" "/" (some 0) 1] ["a", "com"]).count
        (rowToCookie (Row.mk "a.com" "n" "v" "/" (some 0) 1))
    ∧ rowToCookie (Row.mk "a.com" "n" "v" "/" (some 0) 1)
        ∈ get_chrome_cookies [Row.mk "a.com" "n" "v" "/" (some 0) 1] ["a", "com"] := by
  refine ⟨?_, ?_, ?_⟩
  · have h := C3_amended_thm.1 [Row.mk "a.com" "n" "v" "/" (some 0) 1] ["a", "com"] (by decide)
    rw [h]
    decide
  · exact C3_amended_thm.2.1 [Row.mk "a.com" "n" "v" "/" (some 0) 1] [] [] [] "a" "com"
      (Row.mk "a.com" "n" "v" "/" (some 0) 1) (by decide) (by decide) (by decide)
  · exact C3_amended_thm.2.2 [Row.mk "a.com" "n" "v" "/" (some 0) 1] ["a", "com"] "a"
      (Row.mk "a.com" "n" "v" "/" (some 0) 1) (by decide) (by decide) (by decide)

/-- C2 evaluation at the failing input: for an existing source file whose
querying raises (wrong schema or not a database), the reader propagates the
database error while the temporary copy is still on disk, because the
`os.remove` at source line 163 is only reached on the success path (there is
no try/finally around the query). This contradicts the claimed guaranteed
deletion on every failure path. -/
theorem C2_code_bug_eval :
    run_get_chrome_cookies "/tmp" true none []
      = (Except.error ReadError.databaseError, some "/tmp/chrome_cookies_export_temp.db")
    ∧ (∀ (tmpDir : String) (table : List Row) (filter_domains : List String),
        (run_get_chrome_cookies tmpDir true (some table) filter_domains).2 = none) := by
  refine ⟨rfl, ?_⟩
  intro tmpDir table filter_domains
  rfl

/-- C8: when the source database path does not exist, `shutil.copy2` raises
before the temporary copy is created and before any output is produced; the
run fails with the storage access error, the output file keeps its prior
state (in particular it is not created when absent), and no temporary file
is left behind. -/
theorem C8_thm :
    ∀ (tmpDir : String) (table : Option (List Row)) (filter_domains : List String)
      (outputBefore : Option String),
      run_pipeline tmpDir false table filter_domains outputBefore
          = (Except.error ReadError.fileNotFound, outputBefore)
      ∧ (run_get_chrome_cookies tmpDir false table filter_domains).2 = none := by
  intro tmpDir table filter_domains outputBefore
  exact ⟨rfl, rfl⟩

/-- C9: the pipeline is deterministic, and its result depends only on the
store contents and the filter list: for the same table and filters, any two
runs (with any temp directories and any prior output file states) return the
same result, hence byte-identical output text. -/
theorem C9_thm :
    ∀ (tmpDir1 tmpDir2 : String) (srcExists : Bool) (table : Option (List Row))
      (filter_domains : List String) (out1 out2 : Option String),
      (run_pipeline tmpDir1 srcExists table filter_domains out1).1
        = (run_pipeline tmpDir2 srcExists table filter_domains out2).1 := by
  intro t1 t2 srcExists table filter_domains o1 o2
  cases srcExists with
  | false => rfl
  | true => cases table <;> rfl

end CookieExporter
